import Mathlib

/-!
Verification of the voice-service session lifecycle and usage-accounting
subsystem (src/services/session-manager.ts, src/controllers/voice-controller.ts,
src/config/agents.ts, src/services/elevenlabs-service.ts, src/utils/redis.ts,
src/db/schema.ts).

The TypeScript service is shallowly embedded as pure functions over an explicit
`ManagerState` holding the Redis cache contents, the two Postgres tables, and
the in-process `userUsage` Map.  Clock reads (`new Date()`, `Date.now()`), the
Europe/Warsaw calendar date, and freshly generated session ids are passed in as
parameters; fallible database calls are modelled through a `Faults` record that
says whether a given store operation fails, with the source's try/catch
structure reproduced at the call sites that have one.
-/

namespace VoiceService

/-- Session status union from session-manager.ts:
'starting' | 'active' | 'ending' | 'ended' | 'error'. -/
inductive Status
  | starting
  | active
  | ending
  | ended
  | err
deriving DecidableEq, Repr

/-- Client type union: 'web' | 'flutter' | 'mobile'. -/
inductive ClientType
  | web
  | flutter
  | mobile
deriving DecidableEq, Repr

/-- The VoiceSession interface.  Timestamps are milliseconds since epoch
(JS Date.getTime()); metadata (a JSON object) is modelled as a string map. -/
structure VoiceSession where
  id : String
  userUuid : String
  userName : String
  userToken : String
  conversationId : String
  agentId : String
  elevenLabsConversationId : Option String
  startTime : Int
  endTime : Option Int
  duration : Int
  status : Status
  clientType : ClientType
  metadata : List (String × String)
deriving DecidableEq, Repr

/-- A row of the voice_sessions table (db/schema.ts). -/
structure SessionRow where
  id : String
  userUuid : String
  userName : String
  conversationId : String
  agentId : String
  elevenLabsConversationId : Option String
  status : Status
  clientType : ClientType
  startTime : Int
  endTime : Option Int
  durationSeconds : Int
  metadata : List (String × String)
deriving DecidableEq, Repr

/-- The UserVoiceUsage interface (the in-process daily usage record). -/
structure UserVoiceUsage where
  userUuid : String
  date : String
  totalDuration : Int
  sessionCount : Int
  limit : Int
  isLimitReached : Bool
deriving DecidableEq, Repr

/-- A row of the user_voice_usage_daily table, primary key
(user_uuid, usage_date). -/
structure UsageRow where
  userUuid : String
  usageDate : String
  totalDuration : Int
  sessionCount : Int
  limitSeconds : Int
  isLimitReached : Bool
deriving DecidableEq, Repr

/-- Association-list lookup (used to model Redis keys, table primary keys and
the in-process Map). -/
def alookup {κ α : Type} [DecidableEq κ] (k : κ) : List (κ × α) → Option α
  | [] => none
  | (k', v) :: rest => if k' = k then some v else alookup k rest

/-- Association-list insert-or-replace. -/
def aset {κ α : Type} [DecidableEq κ] (k : κ) (v : α) : List (κ × α) → List (κ × α)
  | [] => [(k, v)]
  | (k', v') :: rest => if k' = k then (k, v) :: rest else (k', v') :: aset k v rest

/-- Association-list removal (Redis DEL). -/
def aremove {κ α : Type} [DecidableEq κ] (k : κ) : List (κ × α) → List (κ × α)
  | [] => []
  | (k', v') :: rest => if k' = k then aremove k rest else (k', v') :: aremove k rest

/-- Redis SADD on a set modelled as a duplicate-free list. -/
def sadd (x : String) (l : List String) : List String :=
  if x ∈ l then l else l.concat x

/-- Redis SREM. -/
def srem (x : String) (l : List String) : List String :=
  l.filter (fun y => y ≠ x)

/-- The shared mutable state the manager operates on: the Redis keys it uses
(session:{id} values, the sessions:active set, the user_sessions:{uuid} sets),
the two durable tables, and the in-process userUsage Map.  The Map is keyed in
the source by the string `${userKey}_${today}`; it is keyed here by the pair
(userKey, today), which the concatenation encodes. -/
structure ManagerState where
  sessionCache : List (String × VoiceSession)
  activeSet : List String
  userSessionSets : List (String × List String)
  dbSessions : List (String × SessionRow)
  dbUsage : List ((String × String) × UsageRow)
  memUsage : List ((String × String) × UserVoiceUsage)
deriving DecidableEq, Repr

/-- The state of a fresh deployment: empty cache, empty tables, empty Map. -/
def emptyState : ManagerState :=
  { sessionCache := [], activeSet := [], userSessionSets := []
    dbSessions := [], dbUsage := [], memUsage := [] }

/-- Environment-derived configuration of VoiceSessionManager:
DAILY_LIMIT_SECONDS (VOICE_TIME_LIMIT, default 600) and SESSION_TTL_SECONDS
(VOICE_SESSION_TTL_MINUTES * 60, default 3600).  TTL values are attached to
cache writes in the source; expiry itself is not modelled. -/
structure Config where
  dailyLimitSeconds : Int
  sessionTtlSeconds : Int
deriving DecidableEq, Repr

/-- The default configuration (no environment overrides). -/
def cfgDefault : Config := { dailyLimitSeconds := 600, sessionTtlSeconds := 3600 }

/-- Which durable-store operations fail during a call.  sessionDbFails covers
the voice_sessions reads/writes, usageDbFails the user_voice_usage_daily
reads/writes. -/
structure Faults where
  sessionDbFails : Bool
  usageDbFails : Bool
deriving DecidableEq, Repr

/-- All stores healthy. -/
def Faults.healthy : Faults := { sessionDbFails := false, usageDbFails := false }

/-- The private dbLoadSession: SELECT from voice_sessions WHERE id = sessionId
LIMIT 1, mapping the row back to a VoiceSession (userToken is not stored and is
restored as "").  The body is wrapped in try/catch returning null on error.
Note there is no filter on status or end_time: an already-ended row is
resolved like any other. -/
def dbLoadSession (f : Faults) (sessionId : String) (st : ManagerState) : Option VoiceSession :=
  if f.sessionDbFails then none
  else
    match alookup sessionId st.dbSessions with
    | none => none
    | some r =>
      some { id := r.id, userUuid := r.userUuid, userName := r.userName, userToken := ""
             conversationId := r.conversationId, agentId := r.agentId
             elevenLabsConversationId := r.elevenLabsConversationId
             startTime := r.startTime, endTime := r.endTime, duration := r.durationSeconds
             status := r.status, clientType := r.clientType, metadata := r.metadata }

/-- The private loadUsageFromDatabase: SELECT from user_voice_usage_daily by
(user_uuid, usage_date) LIMIT 1; try/catch returns null on error. -/
def loadUsageFromDatabase (f : Faults) (userKey date : String) (st : ManagerState) :
    Option UserVoiceUsage :=
  if f.usageDbFails then none
  else
    (alookup (userKey, date) st.dbUsage).map fun row =>
      { userUuid := row.userUuid, date := date, totalDuration := row.totalDuration
        sessionCount := row.sessionCount, limit := row.limitSeconds
        isLimitReached := row.isLimitReached }

/-- The fresh zero usage record built inline in getUserDailyUsage and
trackVoiceUsage: zero totals, limit = DAILY_LIMIT_SECONDS, flag false. -/
def zeroUsage (cfg : Config) (userKey today : String) : UserVoiceUsage :=
  { userUuid := userKey, date := today, totalDuration := 0, sessionCount := 0
    limit := cfg.dailyLimitSeconds, isLimitReached := false }

/-- getUserDailyUsage(userKey): consult the in-process Map for key
(userKey, today); on a miss, load from the database and cache the result; on a
double miss, materialize a zero record in the Map (not persisted). -/
def getUserDailyUsage (cfg : Config) (f : Faults) (today userKey : String)
    (st : ManagerState) : UserVoiceUsage × ManagerState :=
  match alookup (userKey, today) st.memUsage with
  | some u => (u, st)
  | none =>
    match loadUsageFromDatabase f userKey today st with
    | some u => (u, { st with memUsage := aset (userKey, today) u st.memUsage })
    | none =>
      let u := zeroUsage cfg userKey today
      (u, { st with memUsage := aset (userKey, today) u st.memUsage })

/-- The synchronous portion of trackVoiceUsage, up to its await of
persistUsageToDatabase: read the Map entry (or build a fresh record), add the
duration to totalDuration, add 1 to sessionCount, recompute isLimitReached as
totalDuration >= DAILY_LIMIT_SECONDS (the configured limit, not the record's
own limit field), write the Map, and return the snapshot that is then handed to
persistUsageToDatabase.  There is no await between the read and the write, so
this block is atomic within the event loop; the await that follows it is a
suspension point at which other calls may interleave. -/
def trackVoiceUsageMem (cfg : Config) (today userKey : String) (duration : Int)
    (st : ManagerState) : UserVoiceUsage × ManagerState :=
  let usage0 :=
    match alookup (userKey, today) st.memUsage with
    | some u => u
    | none => zeroUsage cfg userKey today
  let usage : UserVoiceUsage :=
    { usage0 with
      totalDuration := usage0.totalDuration + duration
      sessionCount := usage0.sessionCount + 1
      isLimitReached := decide (usage0.totalDuration + duration ≥ cfg.dailyLimitSeconds) }
  (usage, { st with memUsage := aset (userKey, today) usage st.memUsage })

/-- The INSERT ... ON CONFLICT (user_uuid, usage_date) DO UPDATE issued by
persistUsageToDatabase.  Both the insert branch and the conflict branch store
the snapshot's absolute totalDuration/sessionCount/limit/flag values (a SET,
not an additive delta). -/
def dbUpsertUsage (usage : UserVoiceUsage)
    (dbu : List ((String × String) × UsageRow)) : List ((String × String) × UsageRow) :=
  aset (usage.userUuid, usage.date)
    { userUuid := usage.userUuid, usageDate := usage.date
      totalDuration := usage.totalDuration, sessionCount := usage.sessionCount
      limitSeconds := usage.limit, isLimitReached := usage.isLimitReached } dbu

/-- The private persistUsageToDatabase: the upsert above, with the whole body
inside try/catch — a database failure is logged ("Failed to persist usage,
continuing") and swallowed, leaving the table unchanged. -/
def persistUsageToDatabase (f : Faults) (usage : UserVoiceUsage)
    (st : ManagerState) : ManagerState :=
  if f.usageDbFails then st
  else { st with dbUsage := dbUpsertUsage usage st.dbUsage }

/-- The private trackVoiceUsage(userKey, duration): the synchronous Map
update followed by the awaited persistUsageToDatabase. -/
def trackVoiceUsage (cfg : Config) (f : Faults) (today userKey : String)
    (duration : Int) (st : ManagerState) : ManagerState :=
  let r := trackVoiceUsageMem cfg today userKey duration st
  persistUsageToDatabase f r.1 r.2

/-- Parameters of createSession. -/
structure CreateParams where
  userUuid : String
  userName : String
  userToken : String
  conversationId : String
  agentId : String
  clientType : ClientType
  metadata : List (String × String)
deriving DecidableEq, Repr

/-- The one error createSession itself throws:
'Daily voice usage limit reached'. -/
inductive CreateError
  | quotaExceeded
deriving DecidableEq, Repr

/-- The user_sessions:{uuid} Redis set (SMEMBERS of a missing key is empty). -/
def userSet (st : ManagerState) (userUuid : String) : List String :=
  (alookup userUuid st.userSessionSets).getD []

/-- The db.insert(voiceSessions) issued at the end of createSession, inside
try/catch ("Failed to persist session start, continuing"): a store failure or a
primary-key conflict raises, is caught and swallowed, leaving the table
unchanged. -/
def dbInsertSession (f : Faults) (row : SessionRow) (st : ManagerState) : ManagerState :=
  if f.sessionDbFails then st
  else
    match alookup row.id st.dbSessions with
    | some _ => st
    | none => { st with dbSessions := aset row.id row st.dbSessions }

/-- createSession: check the daily usage gate via getUserDailyUsage and throw
quotaExceeded when isLimitReached; otherwise build the session in 'starting'
state with startTime = now, cache it (SET with TTL), SADD it to the active set
and the user's set (refreshing that set's TTL), and best-effort insert the
durable row.  The generated id (generateSessionId: timestamp + random suffix)
is passed in as newId; serializeSession/deserializeSession round-trip the
session losslessly and are identities here. -/
def createSession (cfg : Config) (f : Faults) (now : Int) (today newId : String)
    (p : CreateParams) (st : ManagerState) :
    Except CreateError VoiceSession × ManagerState :=
  let r := getUserDailyUsage cfg f today p.userUuid st
  let usage := r.1
  let st1 := r.2
  if usage.isLimitReached then (Except.error CreateError.quotaExceeded, st1)
  else
    let session : VoiceSession :=
      { id := newId, userUuid := p.userUuid, userName := p.userName
        userToken := p.userToken, conversationId := p.conversationId
        agentId := p.agentId, elevenLabsConversationId := none
        startTime := now, endTime := none, duration := 0
        status := Status.starting, clientType := p.clientType, metadata := p.metadata }
    let st2 : ManagerState :=
      { st1 with
        sessionCache := aset session.id session st1.sessionCache
        activeSet := sadd session.id st1.activeSet
        userSessionSets :=
          aset p.userUuid (sadd session.id (userSet st1 p.userUuid)) st1.userSessionSets }
    let row : SessionRow :=
      { id := session.id, userUuid := session.userUuid, userName := session.userName
        conversationId := session.conversationId, agentId := session.agentId
        elevenLabsConversationId := none, status := Status.starting
        clientType := session.clientType, startTime := session.startTime
        endTime := none, durationSeconds := 0, metadata := session.metadata }
    (Except.ok session, dbInsertSession f row st2)

/-- The db.update(voiceSessions).set({elevenLabsConversationId, status:
'active'}).where(id = sessionId) issued unconditionally at the end of
updateSessionWithElevenLabsId ("Always update DB, even if Redis miss").  An
UPDATE whose WHERE clause matches no row changes nothing.  Note the SET is not
guarded by the row's current status: an ended row is also set back to
'active'. -/
def dbUpdateSessionAttach (sessionId elevenLabsConversationId : String)
    (dbs : List (String × SessionRow)) : List (String × SessionRow) :=
  match alookup sessionId dbs with
  | none => dbs
  | some r =>
    aset sessionId
      { r with elevenLabsConversationId := some elevenLabsConversationId
               status := Status.active } dbs

/-- updateSessionWithElevenLabsId(sessionId, elevenLabsConversationId): on a
cache hit, set the provider id, transition the cached session to 'active',
rewrite the cache entry (re-arming its TTL) and re-assert both set memberships;
then always issue the durable update above regardless of cache hit. -/
def updateSessionWithElevenLabsId (sessionId elevenLabsConversationId : String)
    (st : ManagerState) : ManagerState :=
  let st1 :=
    match alookup sessionId st.sessionCache with
    | none => st
    | some s =>
      let s' := { s with elevenLabsConversationId := some elevenLabsConversationId
                         status := Status.active }
      { st with
        sessionCache := aset sessionId s' st.sessionCache
        activeSet := sadd sessionId st.activeSet
        userSessionSets :=
          aset s.userUuid (sadd sessionId (userSet st s.userUuid)) st.userSessionSets }
  { st1 with
    dbSessions := dbUpdateSessionAttach sessionId elevenLabsConversationId st1.dbSessions }

/-- The db.update(voiceSessions).set({endTime, durationSeconds, status:
'ended'}).where(id) issued by endSession, inside try/catch ("Failed to update
session end, continuing"). -/
def dbUpdateSessionEnd (f : Faults) (sessionId : String) (endTime duration : Int)
    (dbs : List (String × SessionRow)) : List (String × SessionRow) :=
  if f.sessionDbFails then dbs
  else
    match alookup sessionId dbs with
    | none => dbs
    | some r =>
      aset sessionId
        { r with endTime := some endTime, durationSeconds := duration
                 status := Status.ended } dbs

/-- endSession(sessionId): resolve the session from the cache, falling back to
dbLoadSession; return null when neither resolves.  Otherwise set endTime = now,
duration = Math.floor((endTime - startTime) / 1000) — JS floor division of the
millisecond difference, with no lower bound — and status 'ended'; then track
usage, best-effort update the durable row, and remove the session from the
cache and both index sets (each removal has a .catch swallowing cache errors;
SREM of an absent member or key is a no-op). -/
def endSession (cfg : Config) (f : Faults) (now : Int) (today sessionId : String)
    (st : ManagerState) : Option VoiceSession × ManagerState :=
  let resolved :=
    match alookup sessionId st.sessionCache with
    | some s => some s
    | none => dbLoadSession f sessionId st
  match resolved with
  | none => (none, st)
  | some s0 =>
    let duration := Int.fdiv (now - s0.startTime) 1000
    let s := { s0 with endTime := some now, duration := duration, status := Status.ended }
    let st1 := trackVoiceUsage cfg f today s.userUuid duration st
    let st2 := { st1 with dbSessions := dbUpdateSessionEnd f s.id now duration st1.dbSessions }
    let st3 : ManagerState :=
      { st2 with
        sessionCache := aremove sessionId st2.sessionCache
        activeSet := srem sessionId st2.activeSet
        userSessionSets :=
          match alookup s.userUuid st2.userSessionSets with
          | none => st2.userSessionSets
          | some l => aset s.userUuid (srem sessionId l) st2.userSessionSets }
    (some s, st3)

/-- getSession(sessionId): cache lookup with durable fallback; read-only. -/
def getSession (f : Faults) (sessionId : String) (st : ManagerState) : Option VoiceSession :=
  match alookup sessionId st.sessionCache with
  | some s => some s
  | none => dbLoadSession f sessionId st

/-- cleanupExpiredSessions, invoked by setInterval every 5 minutes.  Its whole
body is the comment "No-op; Redis TTL handles expiration. DB is updated on
explicit end." — it reads nothing and writes nothing. -/
def cleanupExpiredSessions (st : ManagerState) : ManagerState :=
  st

/-- The VoiceAgent interface from config/agents.ts. -/
structure VoiceAgent where
  id : String
  agentId : String
  name : String
  description : String
  language : String
  specialization : String
  isActive : Bool
deriving DecidableEq, Repr

/-- The five persona definitions loaded by AgentConfigManager.initializeAgents,
with the upstream agent id optionally overridden by an AGENT_n_ID environment
value (env), falling back to the built-in default. -/
def agentConfigs (env : String → Option String) : List VoiceAgent :=
  [ { id := "agent_1", agentId := (env "AGENT_1_ID").getD "agent_7401k56rrgbme4bvmb49ym9annev"
      name := "Main Agent", description := "Primary customer support agent"
      language := "Polish", specialization := "customer_support", isActive := true }
  , { id := "agent_2", agentId := (env "AGENT_2_ID").getD "agent_0801k4z2a4cdfz2tms20kdyvav1a"
      name := "Miły Agent", description := "Specialized in dietary consultations"
      language := "Polish", specialization := "diet_consultation", isActive := true }
  , { id := "agent_3", agentId := (env "AGENT_3_ID").getD "agent_0801k4z2a4cdfz2tms20kdyvav1a"
      name := "Inteligentny Agent", description := "Sales and product recommendations"
      language := "Polish", specialization := "sales", isActive := true }
  , { id := "agent_4", agentId := (env "AGENT_4_ID").getD "agent_0801k4z2a4cdfz2tms20kdyvav1a"
      name := "Wesoły Agent", description := "Technical support and troubleshooting"
      language := "Polish", specialization := "technical_support", isActive := true }
  , { id := "agent_5", agentId := (env "AGENT_5_ID").getD "agent_0801k4z2a4cdfz2tms20kdyvav1a"
      name := "Slawkowy Agent", description := "Testowy to do rozmowy"
      language := "Polish", specialization := "technical_support", isActive := true } ]

/-- AgentConfigManager.getAgent: lookup by internal id in the directory the
manager was initialized with (ids are distinct, so first match is the map
entry). -/
def getAgentIn (agents : List VoiceAgent) (agentId : String) : Option VoiceAgent :=
  agents.find? (fun a => a.id == agentId)

/-- The two errors elevenLabsService.validateAgent throws:
'Agent ... not found' and 'Agent ... is not active'. -/
inductive AgentError
  | agentNotFound
  | agentInactive
deriving DecidableEq, Repr

/-- elevenLabsService.validateAgent(agentId): resolve via agentManager.getAgent,
throwing agentNotFound on a miss and agentInactive when the persona is not
active. -/
def validateAgent (agents : List VoiceAgent) (agentId : String) :
    Except AgentError VoiceAgent :=
  match getAgentIn agents agentId with
  | none => Except.error AgentError.agentNotFound
  | some a => if a.isActive then Except.ok a else Except.error AgentError.agentInactive

/-- The failure modes of the startConversation handler up to session creation:
the missing-field 400 guard, a validateAgent throw, or a createSession throw. -/
inductive StartError
  | missingFields
  | agent (e : AgentError)
  | create (e : CreateError)
deriving DecidableEq, Repr

/-- voiceController.startConversation, modelled through the call to
sessionManager.createSession: the `!agentId || !conversationId` guard (an empty
string is falsy in JS), then elevenLabsService.validateAgent, then
createSession.  The subsequent ElevenLabs token fetch and the fire-and-forget
updateSessionWithElevenLabsId call are upstream I/O that happens only after the
session already exists and are outside the claims modelled here. -/
def startConversation (cfg : Config) (f : Faults) (now : Int) (today newId : String)
    (agents : List VoiceAgent) (userUuid userName userToken : String)
    (agentId conversationId : String) (clientType : ClientType)
    (metadata : List (String × String)) (st : ManagerState) :
    Except StartError VoiceSession × ManagerState :=
  if agentId = "" ∨ conversationId = "" then (Except.error StartError.missingFields, st)
  else
    match validateAgent agents agentId with
    | Except.error e => (Except.error (StartError.agent e), st)
    | Except.ok _ =>
      match createSession cfg f now today newId
          { userUuid := userUuid, userName := userName, userToken := userToken
            conversationId := conversationId, agentId := agentId
            clientType := clientType, metadata := metadata } st with
      | (Except.error e, st') => (Except.error (StartError.create e), st')
      | (Except.ok s, st') => (Except.ok s, st')

/-- JS strict inequality (!==) between two values that are each either
undefined (none) or a string: undefined !== undefined is false,
undefined !== "x" is true, and two strings compare by value. -/
def jsStrictNe (a b : Option String) : Bool :=
  decide (a ≠ b)

/-- In endConversation and getConversationStatus the source binds
`const session = sessionManager.getSession(sessionId)` WITHOUT await, so the
bound value is a pending Promise object, not a session: the `!session`
not-found guard sees a truthy object. -/
def unawaitedGetSessionIsTruthy : Bool := true

/-- Reading `.userUuid` off that pending Promise object yields undefined
(a Promise has no userUuid property). -/
def unawaitedGetSessionUserUuid : Option String := none

/-- The responses of the endConversation handler: 404 'Session not found',
403 'Access denied to this session', 404 'Session not found or already ended',
or 200 with the ended session. -/
inductive EndConvResponse
  | notFound
  | accessDenied
  | notFoundAfterEnd
  | ok (s : VoiceSession)
deriving DecidableEq, Repr

/-- voiceController.endConversation: the un-awaited getSession result feeds the
`!session` guard and the `session.userUuid !== user.uuid` ownership check, after
which sessionManager.endSession is awaited.  callerUuid is req.user.uuid, which
the auth layer may leave undefined. -/
def endConversation (cfg : Config) (f : Faults) (now : Int) (today : String)
    (callerUuid : Option String) (sessionId : String) (st : ManagerState) :
    EndConvResponse × ManagerState :=
  if unawaitedGetSessionIsTruthy = false then (EndConvResponse.notFound, st)
  else if jsStrictNe unawaitedGetSessionUserUuid callerUuid then
    (EndConvResponse.accessDenied, st)
  else
    match endSession cfg f now today sessionId st with
    | (none, st') => (EndConvResponse.notFoundAfterEnd, st')
    | (some s, st') => (EndConvResponse.ok s, st')

/-- The responses of the getConversationStatus handler.  In the 200 branch the
source reads id/status/duration/... off the same un-awaited Promise, so every
field of the returned payload is undefined; that branch is a single marker
constructor here. -/
inductive StatusConvResponse
  | notFound
  | accessDenied
  | okUndefinedFields
deriving DecidableEq, Repr

/-- voiceController.getConversationStatus: same un-awaited getSession, same
truthiness guard and ownership check; read-only. -/
def getConversationStatus (callerUuid : Option String) (sessionId : String)
    (st : ManagerState) : StatusConvResponse :=
  if unawaitedGetSessionIsTruthy = false then StatusConvResponse.notFound
  else if jsStrictNe unawaitedGetSessionUserUuid callerUuid then
    StatusConvResponse.accessDenied
  else StatusConvResponse.okUndefinedFields

/-- The Europe/Warsaw calendar date of all concrete runs. -/
def dayW : String := "2026-10-12"

/-- Concrete createSession parameters for user u1. -/
def pU1 : CreateParams :=
  { userUuid := "u1", userName := "User One", userToken := "tok1"
    conversationId := "conv1", agentId := "agent_1"
    clientType := ClientType.web, metadata := [] }

/-- Post-create state for the reaper scenario: one session of user u1 cached
with startTime 0. -/
def c7_st1 : ManagerState :=
  (createSession cfgDefault Faults.healthy 0 dayW "voice_7" pU1 emptyState).2

/-- Post-create state for the clock-skew scenario: session voice_5 cached with
startTime 10000 ms. -/
def c5_st1 : ManagerState :=
  (createSession cfgDefault Faults.healthy 10000 dayW "voice_5" pU1 emptyState).2

/-- Fault pattern for C4: the sessions table works, the usage table fails. -/
def c4_faults : Faults := { sessionDbFails := false, usageDbFails := true }

/-- Post-create state for the C4 scenario (the create-time insert into
voice_sessions succeeds; no usage write happens at create). -/
def c4_st1 : ManagerState :=
  (createSession cfgDefault c4_faults 0 dayW "voice_4" pU1 emptyState).2

/-- Post-end state for the C6 scenario: voice_6 was created at 0 and ended at
5000, so its cache entry is gone and its durable row has status ended. -/
def c6_st2 : ManagerState :=
  (endSession cfgDefault Faults.healthy 5000 dayW "voice_6"
    (createSession cfgDefault Faults.healthy 0 dayW "voice_6" pU1 emptyState).2).2

/-- Witness for C8: on a state whose in-process Map already marks u1's record
limit-reached, createSession fails with quotaExceeded and writes no session
artifact; and on the empty state it succeeds. -/
def c8_limited : ManagerState :=
  { emptyState with
    memUsage := [(("u1", dayW),
      { userUuid := "u1", date := dayW, totalDuration := 600, sessionCount := 1
        limit := 600, isLimitReached := true })] }

/-- Configuration for the C10 scenario: the deployment's configured daily
limit is 400 s. -/
def c10_cfg : Config := { dailyLimitSeconds := 400, sessionTtlSeconds := 3600 }

/-- A durable usage row written when the limit was 600 s: 500 s used, flag
false, captured limit 600. -/
def c10_row : UsageRow :=
  { userUuid := "u10", usageDate := dayW, totalDuration := 500, sessionCount := 3
    limitSeconds := 600, isLimitReached := false }

/-- State holding only that durable row. -/
def c10_st0 : ManagerState := { emptyState with dbUsage := [(("u10", dayW), c10_row)] }

/-- State after the quota read has pulled the row into the in-process Map. -/
def c10_st1 : ManagerState := (getUserDailyUsage c10_cfg Faults.healthy dayW "u10" c10_st0).2

/-- State after an endSession accounting step adds 50 s. -/
def c10_st2 : ManagerState := trackVoiceUsage c10_cfg Faults.healthy dayW "u10" 50 c10_st1

/-- One application of the trackVoiceUsage Map update to an existing record:
add the duration, bump the count, recompute the flag against the configured
daily limit (this is the record trackVoiceUsageMem writes and snapshots). -/
def bumpUsage (cfg : Config) (d : Int) (u : UserVoiceUsage) : UserVoiceUsage :=
  { u with totalDuration := u.totalDuration + d
           sessionCount := u.sessionCount + 1
           isLimitReached := decide (u.totalDuration + d ≥ cfg.dailyLimitSeconds) }

/-- Sequential (non-interleaved) composition of full accounting steps: each
endSession's trackVoiceUsage completes — Map update and database upsert —
before the next begins. -/
def seqTrack (cfg : Config) (f : Faults) (today user : String) (ds : List Int)
    (st : ManagerState) : ManagerState :=
  ds.foldl (fun s d => trackVoiceUsage cfg f today user d s) st

/-- The first leg of the C1 interleaving: endSession A's accounting runs its
synchronous Map update for a 10 s duration and suspends awaiting its database
upsert, holding the snapshot c1_stepA.1. -/
def c1_stepA : UserVoiceUsage × ManagerState :=
  trackVoiceUsageMem cfgDefault dayW "u1" 10 emptyState

/-- The second leg: endSession B's accounting (a distinct 20 s session of the
same user) runs its Map update at the suspension point of A and suspends
awaiting its own upsert, holding snapshot c1_stepB.1. -/
def c1_stepB : UserVoiceUsage × ManagerState :=
  trackVoiceUsageMem cfgDefault dayW "u1" 20 c1_stepA.2

/-- Completion: the two in-flight upserts resolve with B's write landing
before A's — a legal ordering of two concurrent database calls, matching the
source where the Map read-modify-write and the building of the upsert's values
happen synchronously before the awaited query executes. -/
def c1_final : ManagerState :=
  persistUsageToDatabase Faults.healthy c1_stepA.1
    (persistUsageToDatabase Faults.healthy c1_stepB.1 c1_stepB.2)

/-- State after createSession for the C2 run: voice_1 created at time 0 for
u1 with every store healthy. -/
def c2_st1 : ManagerState :=
  (createSession cfgDefault Faults.healthy 0 dayW "voice_1" pU1 emptyState).2

/-- The first endSession of the C2 run, at now = 5000 ms. -/
def c2_end1 : Option VoiceSession × ManagerState :=
  endSession cfgDefault Faults.healthy 5000 dayW "voice_1" c2_st1

/-- The second endSession on the same id, at now = 9000 ms. -/
def c2_end2 : Option VoiceSession × ManagerState :=
  endSession cfgDefault Faults.healthy 9000 dayW "voice_1" c2_end1.2

theorem alookup_aset_self {κ α : Type} [DecidableEq κ] (k : κ) (v : α)
    (l : List (κ × α)) : alookup k (aset k v l) = some v := by
  induction l with
  | nil => simp [aset, alookup]
  | cons hd tl ih =>
    obtain ⟨k', v'⟩ := hd
    by_cases h : k' = k
    · simp [aset, alookup, h]
    · simp [aset, alookup, h, ih]

/-- getUserDailyUsage only ever touches the in-process usage Map: the session
cache, the index sets and both tables come back unchanged. -/
theorem getUserDailyUsage_touches_only_memUsage (cfg : Config) (f : Faults)
    (today userKey : String) (st : ManagerState) :
    (getUserDailyUsage cfg f today userKey st).2.sessionCache = st.sessionCache ∧
    (getUserDailyUsage cfg f today userKey st).2.activeSet = st.activeSet ∧
    (getUserDailyUsage cfg f today userKey st).2.userSessionSets = st.userSessionSets ∧
    (getUserDailyUsage cfg f today userKey st).2.dbSessions = st.dbSessions ∧
    (getUserDailyUsage cfg f today userKey st).2.dbUsage = st.dbUsage := by
  unfold getUserDailyUsage
  rcases hm : alookup (userKey, today) st.memUsage with _ | u
  · rcases hl : loadUsageFromDatabase f userKey today st with _ | u <;> simp [hm, hl]
  · simp [hm]

/-- C3: in endConversation and getConversationStatus the ownership check reads
userUuid off the un-awaited Promise returned by getSession, so for every
caller whose uuid is defined the comparison `undefined !== uuid` signals a
mismatch: both handlers answer 403 access-denied, the state is untouched, and
sessionManager.endSession is never reached — no session can be ended through
the end-conversation endpoint by such a caller. -/
theorem voiceC3_handlers_always_deny (cfg : Config) (f : Faults) (now : Int)
    (today u sessionId : String) (st : ManagerState) :
    endConversation cfg f now today (some u) sessionId st
      = (EndConvResponse.accessDenied, st) ∧
    getConversationStatus (some u) sessionId st = StatusConvResponse.accessDenied := by
  constructor
  · simp [endConversation, jsStrictNe, unawaitedGetSessionIsTruthy,
      unawaitedGetSessionUserUuid]
  · simp [getConversationStatus, jsStrictNe, unawaitedGetSessionIsTruthy,
      unawaitedGetSessionUserUuid]

/-- C7 counterexample: at now = 5000000 ms the cached session voice_7 (started
at 0) is 5000 s old, far beyond the 30-minute idle ceiling the legacy reaper
enforced and any fixed ceiling longer than the 600 s daily quota; yet
cleanupExpiredSessions changes nothing — the session stays cached in
'starting', no usage row exists, and the durable row is still 'starting'. -/
theorem voiceC7_counterexample :
    cleanupExpiredSessions c7_st1 = c7_st1 ∧
    ((alookup "voice_7" c7_st1.sessionCache).map VoiceSession.startTime) = some 0 ∧
    ((5000000 : Int) - 0 > 1800 * 1000) ∧
    alookup ("u1", dayW) c7_st1.dbUsage = none ∧
    ((alookup "voice_7" c7_st1.dbSessions).map SessionRow.status) = some Status.starting := by
  decide

/-- C7 (amended): the periodic cleanup task is a no-op on every state — it
force-ends nothing and accounts no usage; idle sessions are only dropped by the
cache TTL, never quota-accounted or durably marked ended by the reaper. -/
theorem voiceC7_cleanup_is_noop (st : ManagerState) :
    cleanupExpiredSessions st = st :=
  rfl

/-- C5 counterexample: ending voice_5 at now = 0 (a clock 10 s behind the
creation clock) returns duration -10: the computed duration is negative, not
clamped to 0. -/
theorem voiceC5_counterexample :
    ((endSession cfgDefault Faults.healthy 0 dayW "voice_5" c5_st1).1.map
      VoiceSession.duration) = some (-10) ∧ ((-10 : Int) < 0) := by
  decide

/-- C5 (amended): every session resolved by endSession comes back with
duration = floor((now - start) / 1000), endTime = now and status ended — with
no lower bound, so under clock skew the duration is negative rather than
clamped to 0. -/
theorem voiceC5_duration_floor (cfg : Config) (f : Faults) (now : Int)
    (today sessionId : String) (st : ManagerState) (s : VoiceSession)
    (h : (endSession cfg f now today sessionId st).1 = some s) :
    s.duration = Int.fdiv (now - s.startTime) 1000 ∧
    s.endTime = some now ∧ s.status = Status.ended := by
  unfold endSession at h
  rcases hres : (match alookup sessionId st.sessionCache with
    | some s => some s
    | none => dbLoadSession f sessionId st) with _ | s0
  · rw [hres] at h; simp at h
  · rw [hres] at h
    simp only at h
    cases h
    simp

/-- Witness for C5 (amended): the ended session of the voice_5 run satisfies
the duration formula at now = 0. -/
theorem voiceC5_duration_floor_witness :
    ∃ s : VoiceSession,
      s.duration = Int.fdiv (0 - s.startTime) 1000 ∧
      s.endTime = some 0 ∧ s.status = Status.ended :=
  ⟨((endSession cfgDefault Faults.healthy 0 dayW "voice_5" c5_st1).1.getD
      { id := "", userUuid := "", userName := "", userToken := ""
        conversationId := "", agentId := "", elevenLabsConversationId := none
        startTime := 0, endTime := none, duration := 0
        status := Status.starting, clientType := ClientType.web, metadata := [] }),
    voiceC5_duration_floor cfgDefault Faults.healthy 0 dayW "voice_5" c5_st1 _ (by decide)⟩

/-- C4 counterexample: with the usage table failing, endSession at now = 5000
still returns the ended session — the caller sees an ordinary success — while
the durable usage table is left untouched (the 5 s increment reached only the
in-process record).  The store failure during the quota-increment step was
swallowed inside persistUsageToDatabase, not propagated. -/
theorem voiceC4_counterexample :
    ((endSession cfgDefault c4_faults 5000 dayW "voice_4" c4_st1).1.map
      VoiceSession.status) = some Status.ended ∧
    (endSession cfgDefault c4_faults 5000 dayW "voice_4" c4_st1).2.dbUsage
      = c4_st1.dbUsage ∧
    ((alookup ("u1", dayW)
        (endSession cfgDefault c4_faults 5000 dayW "voice_4" c4_st1).2.memUsage).map
      UserVoiceUsage.totalDuration) = some 5 := by
  decide

/-- C4 (amended): a durable-store failure during endSession's quota-increment
step is caught and logged inside persistUsageToDatabase; the call's result is
exactly the one a healthy usage store would produce (the end is reported
successful, nothing propagates to the caller) and the durable usage table is
simply left unchanged. -/
theorem voiceC4_usage_failure_swallowed (cfg : Config) (sf : Bool) (now : Int)
    (today sessionId : String) (st : ManagerState) :
    (endSession cfg { sessionDbFails := sf, usageDbFails := true }
        now today sessionId st).1
      = (endSession cfg { sessionDbFails := sf, usageDbFails := false }
          now today sessionId st).1 ∧
    (endSession cfg { sessionDbFails := sf, usageDbFails := true }
        now today sessionId st).2.dbUsage = st.dbUsage := by
  unfold endSession
  rcases hres : (match alookup sessionId st.sessionCache with
    | some s => some s
    | none => dbLoadSession { sessionDbFails := sf, usageDbFails := true }
        sessionId st) with _ | s0
  · have hres' : (match alookup sessionId st.sessionCache with
      | some s => some s
      | none => dbLoadSession { sessionDbFails := sf, usageDbFails := false }
          sessionId st) = none := by
      rcases hc : alookup sessionId st.sessionCache with _ | s
      · rw [hc] at hres; simpa [dbLoadSession] using hres
      · rw [hc] at hres; simp at hres
    rw [hres, hres']
    exact ⟨rfl, rfl⟩
  · have hres' : (match alookup sessionId st.sessionCache with
      | some s => some s
      | none => dbLoadSession { sessionDbFails := sf, usageDbFails := false }
          sessionId st) = some s0 := by
      rcases hc : alookup sessionId st.sessionCache with _ | s
      · rw [hc] at hres; simpa [dbLoadSession] using hres
      · rw [hc] at hres; simpa using hres
    rw [hres, hres']
    constructor
    · rfl
    · simp [trackVoiceUsage, trackVoiceUsageMem, persistUsageToDatabase,
        dbUpdateSessionEnd]

/-- C6 counterexample: the durable row of voice_6 is 'ended' after endSession,
yet a subsequent updateSessionWithElevenLabsId unconditionally rewrites it to
'active' — a transition out of the terminal ended state in the durable
store. -/
theorem voiceC6_counterexample :
    ((alookup "voice_6" c6_st2.dbSessions).map SessionRow.status)
      = some Status.ended ∧
    ((alookup "voice_6"
        (updateSessionWithElevenLabsId "voice_6" "el_1" c6_st2).dbSessions).map
      SessionRow.status) = some Status.active ∧
    Status.active ≠ Status.ended := by
  decide

/-- C6 (amended): updateSessionWithElevenLabsId on a session id that is in
neither the cache nor the durable store is a no-op (not an error); but whenever
a durable row for the id exists, the call unconditionally sets that row's
provider id and status 'active' — including for a row already in the terminal
ended state, which is thereby re-opened in the durable store (the cache is
unaffected after an end because endSession evicts the entry). -/
theorem voiceC6_attach_behavior (sessionId el : String) (st : ManagerState) :
    (alookup sessionId st.sessionCache = none →
      alookup sessionId st.dbSessions = none →
      updateSessionWithElevenLabsId sessionId el st = st) ∧
    (∀ r, alookup sessionId st.dbSessions = some r →
      alookup sessionId (updateSessionWithElevenLabsId sessionId el st).dbSessions
        = some { r with elevenLabsConversationId := some el
                        status := Status.active }) := by
  constructor
  · intro hc hdb
    simp [updateSessionWithElevenLabsId, hc, dbUpdateSessionAttach, hdb]
  · intro r hdb
    unfold updateSessionWithElevenLabsId
    rcases hc : alookup sessionId st.sessionCache with _ | s
    · simp [hc, dbUpdateSessionAttach, hdb, alookup_aset_self]
    · simp [hc, dbUpdateSessionAttach, hdb, alookup_aset_self]

/-- Witness for C6 (amended): on the empty state the attach call is a no-op
for an unknown id, and on the post-end state the ended voice_6 row is rewritten
to 'active' with the provider id attached. -/
theorem voiceC6_attach_behavior_witness :
    updateSessionWithElevenLabsId "voice_x" "el_1" emptyState = emptyState ∧
    alookup "voice_6"
        (updateSessionWithElevenLabsId "voice_6" "el_1" c6_st2).dbSessions
      = some { id := "voice_6", userUuid := "u1", userName := "User One"
               conversationId := "conv1", agentId := "agent_1"
               elevenLabsConversationId := some "el_1", status := Status.active
               clientType := ClientType.web, startTime := 0
               endTime := some 5000, durationSeconds := 5, metadata := [] } :=
  ⟨(voiceC6_attach_behavior "voice_x" "el_1" emptyState).1 (by decide) (by decide),
   (voiceC6_attach_behavior "voice_6" "el_1" c6_st2).2
     { id := "voice_6", userUuid := "u1", userName := "User One"
       conversationId := "conv1", agentId := "agent_1"
       elevenLabsConversationId := none, status := Status.ended
       clientType := ClientType.web, startTime := 0
       endTime := some 5000, durationSeconds := 5, metadata := [] } (by decide)⟩

/-- C8: createSession throws 'Daily voice usage limit reached' exactly when the
usage record resolved for (userUuid, today) at call time has isLimitReached
set; on that failure the session cache, both index sets and both durable tables
are untouched (only the read-through usage Map may have cached the record the
gate just read, which is never durably persisted); and the gate is evaluated
only at creation — the session endSession resolves and returns is independent
of the usage state, so a session is never re-checked against the quota
mid-flight. -/
theorem voiceC8_quota_gate (cfg : Config) (f : Faults) (now : Int)
    (today newId : String) (p : CreateParams) (st : ManagerState) :
    ((createSession cfg f now today newId p st).1
        = Except.error CreateError.quotaExceeded
      ↔ (getUserDailyUsage cfg f today p.userUuid st).1.isLimitReached = true) ∧
    ((getUserDailyUsage cfg f today p.userUuid st).1.isLimitReached = true →
      (createSession cfg f now today newId p st).2.sessionCache = st.sessionCache ∧
      (createSession cfg f now today newId p st).2.activeSet = st.activeSet ∧
      (createSession cfg f now today newId p st).2.userSessionSets
        = st.userSessionSets ∧
      (createSession cfg f now today newId p st).2.dbSessions = st.dbSessions ∧
      (createSession cfg f now today newId p st).2.dbUsage = st.dbUsage) ∧
    (∀ sessionId mem dbu,
      (endSession cfg f now today sessionId
          { st with memUsage := mem, dbUsage := dbu }).1
        = (endSession cfg f now today sessionId st).1) := by
  refine ⟨?_, ?_, ?_⟩
  · unfold createSession
    cases hflag : (getUserDailyUsage cfg f today p.userUuid st).1.isLimitReached <;>
      simp [hflag]
  · intro hflag
    have hpres := getUserDailyUsage_touches_only_memUsage cfg f today p.userUuid st
    unfold createSession
    simp only [hflag, if_true]
    exact hpres
  · intro sessionId mem dbu
    have hdb : dbLoadSession f sessionId { st with memUsage := mem, dbUsage := dbu }
        = dbLoadSession f sessionId st := rfl
    unfold endSession
    rcases hc : alookup sessionId st.sessionCache with _ | s
    · rcases hload : dbLoadSession f sessionId st with _ | s0 <;>
        simp [hc, hdb, hload]
    · simp [hc]

/-- Witness for C8 applying the gate theorem at the concrete limit-reached
state. -/
theorem voiceC8_quota_gate_witness :
    (createSession cfgDefault Faults.healthy 0 dayW "voice_8" pU1 c8_limited).1
      = Except.error CreateError.quotaExceeded ∧
    (createSession cfgDefault Faults.healthy 0 dayW "voice_8" pU1 c8_limited).2.dbSessions
      = c8_limited.dbSessions ∧
    (endSession cfgDefault Faults.healthy 0 dayW "voice_8"
        { c8_limited with memUsage := [], dbUsage := [] }).1
      = (endSession cfgDefault Faults.healthy 0 dayW "voice_8" c8_limited).1 :=
  ⟨(voiceC8_quota_gate cfgDefault Faults.healthy 0 dayW "voice_8" pU1
      c8_limited).1.mpr (by decide),
   ((voiceC8_quota_gate cfgDefault Faults.healthy 0 dayW "voice_8" pU1
      c8_limited).2.1 (by decide)).2.2.2.1,
   (voiceC8_quota_gate cfgDefault Faults.healthy 0 dayW "voice_8" pU1
      c8_limited).2.2 "voice_8" [] []⟩

/-- C9: for a well-formed request (both required fields present, so the 400
guard does not fire first), an agentId that does not resolve in the directory
makes the start-conversation operation fail with AgentNotFound — and an
agentId resolving to an inactive persona fail with AgentInactive — with the
state returned untouched: no session row, cache entry, index membership or
usage record is created, because validateAgent throws before createSession
runs. -/
theorem voiceC9_agent_gate (cfg : Config) (f : Faults) (now : Int)
    (today newId : String) (agents : List VoiceAgent)
    (userUuid userName userToken agentId conversationId : String)
    (clientType : ClientType) (metadata : List (String × String))
    (st : ManagerState) (hA : agentId ≠ "") (hC : conversationId ≠ "") :
    (getAgentIn agents agentId = none →
      startConversation cfg f now today newId agents userUuid userName userToken
          agentId conversationId clientType metadata st
        = (Except.error (StartError.agent AgentError.agentNotFound), st)) ∧
    (∀ a, getAgentIn agents agentId = some a → a.isActive = false →
      startConversation cfg f now today newId agents userUuid userName userToken
          agentId conversationId clientType metadata st
        = (Except.error (StartError.agent AgentError.agentInactive), st)) := by
  constructor
  · intro h
    simp [startConversation, hA, hC, validateAgent, h]
  · intro a ha hact
    simp [startConversation, hA, hC, validateAgent, ha, hact]

/-- Witness for C9: with the default directory (no environment overrides),
agentId "nonexistent" fails with AgentNotFound on the empty state, and a
directory holding one inactive persona fails with AgentInactive; both leave the
state untouched. -/
theorem voiceC9_agent_gate_witness :
    startConversation cfgDefault Faults.healthy 0 dayW "voice_9"
        (agentConfigs fun _ => none) "u9" "User" "tok" "nonexistent" "conv9"
        ClientType.web [] emptyState
      = (Except.error (StartError.agent AgentError.agentNotFound), emptyState) ∧
    startConversation cfgDefault Faults.healthy 0 dayW "voice_9"
        [{ id := "agent_x", agentId := "el_x", name := "X", description := "d"
           language := "Polish", specialization := "s", isActive := false }]
        "u9" "User" "tok" "agent_x" "conv9" ClientType.web [] emptyState
      = (Except.error (StartError.agent AgentError.agentInactive), emptyState) :=
  ⟨(voiceC9_agent_gate cfgDefault Faults.healthy 0 dayW "voice_9"
      (agentConfigs fun _ => none) "u9" "User" "tok" "nonexistent" "conv9"
      ClientType.web [] emptyState (by decide) (by decide)).1 (by decide),
   (voiceC9_agent_gate cfgDefault Faults.healthy 0 dayW "voice_9"
      [{ id := "agent_x", agentId := "el_x", name := "X", description := "d"
         language := "Polish", specialization := "s", isActive := false }]
      "u9" "User" "tok" "agent_x" "conv9" ClientType.web [] emptyState
      (by decide) (by decide)).2
     { id := "agent_x", agentId := "el_x", name := "X", description := "d"
       language := "Polish", specialization := "s", isActive := false }
     (by decide) rfl⟩

/-- C10 counterexample: after the 50 s increment the record reads total 550
with captured limit 600, yet isLimitReached was recomputed as true — it was
compared against the current configured limit 400, not the limit stored in the
record (550 >= 600 is false); the persisted row even stores limitSeconds 600
next to the true flag. -/
theorem voiceC10_counterexample :
    ((alookup ("u10", dayW) c10_st2.memUsage).map fun r =>
        (r.isLimitReached, r.totalDuration, r.limit)) = some (true, 550, 600) ∧
    ¬((550 : Int) ≥ 600) ∧
    ((alookup ("u10", dayW) c10_st2.dbUsage).map fun r =>
        (r.isLimitReached, r.limitSeconds)) = some (true, 600) := by
  decide

/-- C10 (amended): every accounting step does recompute the record's
isLimitReached flag, but as total >= the manager's currently configured
DAILY_LIMIT_SECONDS — not the limit captured in the record — so the flag
matches the record's own limit only when that limit equals the current
configuration. -/
theorem voiceC10_flag_uses_config_limit (cfg : Config) (f : Faults)
    (today userKey : String) (d : Int) (st : ManagerState) :
    ∃ r, alookup (userKey, today)
        (trackVoiceUsage cfg f today userKey d st).memUsage = some r ∧
      r.isLimitReached = decide (r.totalDuration ≥ cfg.dailyLimitSeconds) := by
  unfold trackVoiceUsage trackVoiceUsageMem persistUsageToDatabase
  rcases hm : alookup (userKey, today) st.memUsage with _ | u <;>
    cases hf : f.usageDbFails <;>
      simp [hm, hf, alookup_aset_self]

/-- With a healthy store and an existing Map record, trackVoiceUsage bumps the
Map record and overwrites the durable row with the bumped snapshot. -/
theorem trackVoiceUsage_healthy_some (cfg : Config) (today user : String) (d : Int)
    (st : ManagerState) (u : UserVoiceUsage)
    (hm : alookup (user, today) st.memUsage = some u) :
    trackVoiceUsage cfg Faults.healthy today user d st =
      { st with memUsage := aset (user, today) (bumpUsage cfg d u) st.memUsage
                dbUsage := dbUpsertUsage (bumpUsage cfg d u) st.dbUsage } := by
  simp [trackVoiceUsage, trackVoiceUsageMem, persistUsageToDatabase, bumpUsage,
    Faults.healthy, hm]

/-- With a healthy store and no Map record, trackVoiceUsage starts from the
fresh zero record. -/
theorem trackVoiceUsage_healthy_none (cfg : Config) (today user : String) (d : Int)
    (st : ManagerState) (hm : alookup (user, today) st.memUsage = none) :
    trackVoiceUsage cfg Faults.healthy today user d st =
      { st with
        memUsage := aset (user, today)
          (bumpUsage cfg d (zeroUsage cfg user today)) st.memUsage
        dbUsage := dbUpsertUsage
          (bumpUsage cfg d (zeroUsage cfg user today)) st.dbUsage } := by
  simp [trackVoiceUsage, trackVoiceUsageMem, persistUsageToDatabase, bumpUsage,
    zeroUsage, Faults.healthy, hm]

theorem seqTrack_cons (cfg : Config) (f : Faults) (today user : String) (d : Int)
    (ds : List Int) (st : ManagerState) :
    seqTrack cfg f today user (d :: ds) st
      = seqTrack cfg f today user ds (trackVoiceUsage cfg f today user d st) :=
  rfl

/-- Invariant of the sequential fold starting from an existing Map record whose
key fields match: the Map total accumulates the exact sum, and (once at least
one step has run) the durable row holds that same absolute snapshot. -/
theorem seqTrack_healthy_from_some (cfg : Config) (today user : String) :
    ∀ (ds : List Int) (st : ManagerState) (u : UserVoiceUsage),
      alookup (user, today) st.memUsage = some u →
      u.userUuid = user → u.date = today →
      ((alookup (user, today)
          (seqTrack cfg Faults.healthy today user ds st).memUsage).map
            UserVoiceUsage.totalDuration = some (u.totalDuration + ds.sum)) ∧
      (ds ≠ [] →
        (alookup (user, today)
            (seqTrack cfg Faults.healthy today user ds st).dbUsage).map
          UsageRow.totalDuration = some (u.totalDuration + ds.sum)) := by
  intro ds
  induction ds with
  | nil =>
    intro st u hm hu hd
    constructor
    · simp [seqTrack, hm]
    · intro h; exact absurd rfl h
  | cons d ds ih =>
    intro st u hm hu hd
    have hstep := trackVoiceUsage_healthy_some cfg today user d st u hm
    have hm1 : alookup (user, today)
        (trackVoiceUsage cfg Faults.healthy today user d st).memUsage
        = some (bumpUsage cfg d u) := by
      rw [hstep]; exact alookup_aset_self _ _ _
    have hu1 : (bumpUsage cfg d u).userUuid = user := by simp [bumpUsage, hu]
    have hd1 : (bumpUsage cfg d u).date = today := by simp [bumpUsage, hd]
    obtain ⟨ihmem, ihdb⟩ := ih (trackVoiceUsage cfg Faults.healthy today user d st)
      (bumpUsage cfg d u) hm1 hu1 hd1
    rw [seqTrack_cons]
    constructor
    · rw [ihmem]
      simp only [bumpUsage, List.sum_cons, Option.some.injEq]
      omega
    · intro _
      by_cases hds : ds = []
      · subst hds
        simp only [seqTrack, List.foldl]
        rw [hstep]
        simp only [List.sum_cons, List.sum_nil]
        rw [show ((user, today) : String × String)
            = ((bumpUsage cfg d u).userUuid, (bumpUsage cfg d u).date) by
          rw [hu1, hd1]]
        simp only [dbUpsertUsage, alookup_aset_self, Option.map_some,
          Option.map_some', Option.some.injEq]
        simp only [bumpUsage]
        omega
      · rw [ihdb hds]
        simp only [bumpUsage, List.sum_cons, Option.some.injEq]
        omega

/-- C1 counterexample: two concurrent endSession accounting steps for distinct
sessions (10 s and 20 s) of the same user leave the durable total_seconds at
10, not the exact sum 30, because each upsert overwrites the row with its
caller's absolute snapshot instead of adding a delta at the storage layer; the
in-process Map meanwhile holds 30. -/
theorem voiceC1_counterexample :
    ((alookup ("u1", dayW) c1_final.dbUsage).map UsageRow.totalDuration)
      = some 10 ∧
    ((alookup ("u1", dayW) c1_final.memUsage).map UserVoiceUsage.totalDuration)
      = some 30 ∧
    ((10 : Int) ≠ 10 + 20) := by
  decide

/-- C1 (amended): the increment is an in-process read-modify-write on the
usage Map, persisted by an upsert that overwrites the durable row with the
absolute in-memory snapshot.  When the N accounting steps run sequentially
(each completes, Map update and upsert, before the next begins) in one process
whose Map has no record yet for the (user, day) key, the final in-memory total
and the final durable total_seconds both equal the exact sum of the N
durations; the exactness guarantee is lost under interleaved persists, across
replicas, or after a process restart (the fresh Map restarts the absolute
snapshot from zero). -/
theorem voiceC1_sequential_sum (cfg : Config) (today user : String)
    (ds : List Int) (st : ManagerState)
    (hm : alookup (user, today) st.memUsage = none) (hne : ds ≠ []) :
    ((alookup (user, today)
        (seqTrack cfg Faults.healthy today user ds st).memUsage).map
      UserVoiceUsage.totalDuration = some ds.sum) ∧
    ((alookup (user, today)
        (seqTrack cfg Faults.healthy today user ds st).dbUsage).map
      UsageRow.totalDuration = some ds.sum) := by
  rcases ds with _ | ⟨d, rest⟩
  · exact absurd rfl hne
  · have hstep := trackVoiceUsage_healthy_none cfg today user d st hm
    have hm1 : alookup (user, today)
        (trackVoiceUsage cfg Faults.healthy today user d st).memUsage
        = some (bumpUsage cfg d (zeroUsage cfg user today)) := by
      rw [hstep]; exact alookup_aset_self _ _ _
    obtain ⟨ihmem, ihdb⟩ := seqTrack_healthy_from_some cfg today user rest
      (trackVoiceUsage cfg Faults.healthy today user d st)
      (bumpUsage cfg d (zeroUsage cfg user today)) hm1 rfl rfl
    rw [seqTrack_cons]
    constructor
    · rw [ihmem]
      simp only [bumpUsage, zeroUsage, List.sum_cons, Option.some.injEq]
      omega
    · by_cases hrest : rest = []
      · subst hrest
        simp only [seqTrack, List.foldl]
        rw [hstep]
        simp only [dbUpsertUsage, bumpUsage, zeroUsage, alookup_aset_self,
          List.sum_cons, List.sum_nil, Option.map_some, Option.map_some',
          Option.some.injEq]
        omega
      · rw [ihdb hrest]
        simp only [bumpUsage, zeroUsage, List.sum_cons, Option.some.injEq]
        omega

/-- Witness for C1 (amended): two sequential accounting steps of 10 s and
20 s from an empty state leave both the Map total and the durable
total_seconds at 30. -/
theorem voiceC1_sequential_sum_witness :
    ((alookup ("u1", dayW)
        (seqTrack cfgDefault Faults.healthy dayW "u1" [10, 20] emptyState).memUsage).map
      UserVoiceUsage.totalDuration = some 30) ∧
    ((alookup ("u1", dayW)
        (seqTrack cfgDefault Faults.healthy dayW "u1" [10, 20] emptyState).dbUsage).map
      UsageRow.totalDuration = some 30) :=
  voiceC1_sequential_sum cfgDefault dayW "u1" [10, 20] emptyState rfl (by decide)

/-- C2 failing input: the first endSession ends voice_1 (duration 5 s) and
accounts it once; but the second call — whose cache lookup misses because the
entry was evicted — resolves the already-ended durable row through
dbLoadSession (which has no status or end_time filter), recomputes a 9 s
duration from the original start time, increments the usage record AGAIN
(total 14, count 2, also persisted), and returns the session instead of the
claimed not-found. -/
theorem voiceC2_second_end_double_counts :
    ((c2_end1.1.map VoiceSession.duration) = some 5) ∧
    (((alookup ("u1", dayW) c2_end1.2.memUsage).map fun r =>
        (r.totalDuration, r.sessionCount)) = some (5, 1)) ∧
    (alookup "voice_1" c2_end1.2.sessionCache = none) ∧
    (((alookup "voice_1" c2_end1.2.dbSessions).map SessionRow.status)
      = some Status.ended) ∧
    (c2_end2.1 ≠ none) ∧
    ((c2_end2.1.map VoiceSession.duration) = some 9) ∧
    (((alookup ("u1", dayW) c2_end2.2.memUsage).map fun r =>
        (r.totalDuration, r.sessionCount)) = some (14, 2)) ∧
    (((alookup ("u1", dayW) c2_end2.2.dbUsage).map UsageRow.totalDuration)
      = some 14) := by
  decide

end VoiceService
